import Mathlib

/-!
Verification of the `gtrans` command-line translator (`src/gtrans.go`).

The Go program is embedded shallowly:
  - Go strings become Lean `String` (or `List Char` for the character-level
    locale parsing, since Go slices the locale string byte by byte and all
    inputs involved are ASCII).
  - `os.Getenv` returns `""` for an unset variable, so an environment is a
    record of plain strings where the empty string means "unset".
  - The external effects (the Google `ghttp` client constructor, the
    `translate.New` service constructor, the detection and translation API
    calls, stdin) are an oracle record `Api`; each call site of the program
    consults the oracle exactly where the Go code performs the call.
  - Paths of `Main`/`runTranslation` return a trace recording which client
    was built, which API calls were issued with which arguments, what was
    printed and which error (if any) was returned, so that claims about
    "no network call is attempted" are statements about the trace.
-/

namespace Gtrans

/-! ## Locale resolver (`langCodeFromLocale`, gtrans.go lines 197-213) -/

/-- Embedding of `strings.Index(locale, "_")` for the one-character needle
`"_"`: index of the first underscore, `none` for Go's `-1`. -/
def indexOfUnderscore : List Char → Option Nat
  | [] => none
  | c :: cs => if c = '_' then some 0 else (indexOfUnderscore cs).map (· + 1)

/-- `langCodeFromLocale` from gtrans.go on character lists:
`strings.HasPrefix` is `List.isPrefixOf`, `locale[:i]` is `List.take i`. -/
def langCodeFromLocaleL (locale : List Char) : List Char :=
  if "zh_CN".data.isPrefixOf locale || "zh_SG".data.isPrefixOf locale then
    "zh-CN".data
  else if "zh_TW".data.isPrefixOf locale || "zh_HK".data.isPrefixOf locale then
    "zh-TW".data
  else
    match indexOfUnderscore locale with
    | none => []
    | some i => locale.take i

/-- The Go function on `String`. -/
def langCodeFromLocale (locale : String) : String :=
  ⟨langCodeFromLocaleL locale.data⟩

/-- Formalisation of the SPEC's words for the locale resolver (claim C3):
fixed codes for the four Chinese locales, otherwise "the prefix of the
string before the first underscore", otherwise (no underscore) empty. -/
def langCodeFromLocaleSpec (locale : List Char) : List Char :=
  if "zh_CN".data.isPrefixOf locale || "zh_SG".data.isPrefixOf locale then
    "zh-CN".data
  else if "zh_TW".data.isPrefixOf locale || "zh_HK".data.isPrefixOf locale then
    "zh-TW".data
  else if '_' ∈ locale then locale.takeWhile (· ≠ '_') else []

theorem indexOfUnderscore_eq_none_iff (l : List Char) :
    indexOfUnderscore l = none ↔ '_' ∉ l := by
  induction l with
  | nil => simp [indexOfUnderscore]
  | cons c cs ih =>
    by_cases hc : c = '_'
    · simp [indexOfUnderscore, hc]
    · have hc' : ¬('_' = c) := fun h => hc h.symm
      simp [indexOfUnderscore, hc, Option.map_eq_none', ih, hc']

theorem take_indexOfUnderscore (l : List Char) (i : Nat)
    (h : indexOfUnderscore l = some i) :
    l.take i = l.takeWhile (· ≠ '_') ∧ '_' ∈ l := by
  induction l generalizing i with
  | nil => simp [indexOfUnderscore] at h
  | cons c cs ih =>
    by_cases hc : c = '_'
    · simp only [indexOfUnderscore, hc, if_true, Option.some.injEq] at h
      subst h
      simp [hc, List.takeWhile]
    · simp only [indexOfUnderscore, hc, if_false, Option.map_eq_some'] at h
      obtain ⟨j, hj, rfl⟩ := h
      obtain ⟨h1, h2⟩ := ih j hj
      refine ⟨?_, List.mem_cons_of_mem _ h2⟩
      simp [List.takeWhile, hc, h1]

/-- C3 — The locale resolver agrees with the spec's rule set, and the three
quoted examples hold: `en_US.UTF-8 → en`, `zh_HK.Big5 → zh-TW`, `fr → ""`. -/
theorem langCodeFromLocale_spec :
    (∀ l : List Char, langCodeFromLocaleL l = langCodeFromLocaleSpec l) ∧
    langCodeFromLocale "en_US.UTF-8" = "en" ∧
    langCodeFromLocale "zh_HK.Big5" = "zh-TW" ∧
    langCodeFromLocale "fr" = "" := by
  refine ⟨fun l => ?_, by decide, by decide, by decide⟩
  unfold langCodeFromLocaleL langCodeFromLocaleSpec
  split
  · rfl
  · split
    · rfl
    · cases h : indexOfUnderscore l with
      | none =>
        have : '_' ∉ l := (indexOfUnderscore_eq_none_iff l).mp h
        simp [this]
      | some i =>
        obtain ⟨h1, h2⟩ := take_indexOfUnderscore l i h
        simp [h1, h2]

/-- C9 — The locale resolver never returns a string containing an
underscore; its result is one of the fixed codes `zh-CN`/`zh-TW` or a
prefix of the input ending strictly before the first underscore (the
empty result being the empty prefix). -/
theorem langCodeFromLocale_no_underscore :
    ∀ l : List Char, '_' ∉ langCodeFromLocaleL l ∧
      (langCodeFromLocaleL l = "zh-CN".data ∨
       langCodeFromLocaleL l = "zh-TW".data ∨
       ∃ t, langCodeFromLocaleL l ++ t = l) := by
  intro l
  unfold langCodeFromLocaleL
  split
  · exact ⟨by decide, Or.inl rfl⟩
  · split
    · exact ⟨by decide, Or.inr (Or.inl rfl)⟩
    · cases h : indexOfUnderscore l with
      | none =>
        exact ⟨by simp, Or.inr (Or.inr ⟨l, by simp⟩)⟩
      | some i =>
        refine ⟨?_, Or.inr (Or.inr ⟨l.drop i, l.take_append_drop i⟩)⟩
        have h1 := (take_indexOfUnderscore l i h).1
        show '_' ∉ l.take i
        rw [h1]
        intro hmem
        simpa using List.mem_takeWhile_imp hmem

/-! ## Environment and external-effect oracle -/

/-- The environment variables the program reads. `os.Getenv` yields `""`
for an unset variable, so `""` means "unset". -/
structure Env where
  apiKey : String      -- GOOGLE_TRANSLATE_API_KEY
  accessToken : String -- GOOGLE_TRANSLATE_ACCESS_TOKEN
  gtLang : String      -- GOOGLE_TRANSLATE_LANG
  secondLang : String  -- GOOGLE_TRANSLATE_SECOND_LANG
  language : String    -- LANGUAGE
  lcAll : String       -- LC_ALL
  lang : String        -- LANG
deriving Repr, DecidableEq

/-- Oracle for the external collaborators: the two client constructors and
the two remote API calls. `detections text` models the wire response of
`srv.Detections.List([]string{text}).Do()` as a list of detection lists
(each entry the `.Language` field); `translations text target format`
models `srv.Translations.List([]string{text}, target).Format(format).Do()`
as the list of `.TranslatedText` fields. -/
structure Api where
  ghttpErr : Option String   -- error of ghttp.NewClient, if it fails
  serviceErr : Option String -- error of translate.New, if it fails
  detections : String → Except String (List (List String))
  translations : String → String → String → Except String (List String)

/-- The two ways the final `*http.Client` can have been built. -/
inductive Client where
  | ghttp : String → Client  -- from ghttpClient(ctx, apiKey)
  | oauth : String → Client  -- from oauthClient(ctx, accessToken)
deriving Repr, DecidableEq

/-- Outcome of a Go method that either returns an error, returns a value,
or panics (out-of-range indexing of the response). -/
inductive CallResult (α : Type) where
  | panic : CallResult α
  | err : String → CallResult α
  | ok : α → CallResult α
deriving Repr, DecidableEq

/-! ## `Gtrans.Detect` and `Gtrans.Translate` (gtrans.go lines 77-94) -/

/-- `(gtrans *Gtrans) Detect`: wraps an API failure with
`"fail to call detection API: "` and returns `resp.Detections[0][0].Language`
(indexing an empty response panics in Go). -/
def Detect (api : Api) (text : String) : CallResult String :=
  match api.detections text with
  | .error e => .err ("fail to call detection API: " ++ e)
  | .ok [] => .panic
  | .ok ([] :: _) => .panic
  | .ok ((d :: _) :: _) => .ok d

/-- `(gtrans *Gtrans) Translate`: sets `Format("text")`, wraps an API
failure with `"fail to call translate API: "` and returns
`resp.Translations[0].TranslatedText`. -/
def Translate (api : Api) (text target : String) : CallResult String :=
  match api.translations text target "text" with
  | .error e => .err ("fail to call translate API: " ++ e)
  | .ok [] => .panic
  | .ok (t :: _) => .ok t

/-! ## `runTranslation` (gtrans.go lines 126-169) -/

/-- Trace of one `runTranslation` call: the final client the service was
built from, the arguments of the detection and translation calls that were
issued (`none` = the call never happened), the line printed on success,
the error returned, and whether the Go code would have panicked. -/
structure RunTrace where
  client : Option Client := none
  detectArg : Option String := none
  translateArg : Option (String × String) := none
  output : Option String := none
  error : Option String := none
  panicked : Bool := false
deriving Repr, DecidableEq

/-- The tail of `runTranslation` from the `gtrans.Translate` call on:
records the translation call and its outcome. -/
def runTranslateStep (api : Api) (client : Option Client)
    (dArg : Option String) (text targetLang : String) : RunTrace :=
  match Translate api text targetLang with
  | .panic =>
      { client := client, detectArg := dArg,
        translateArg := some (text, targetLang), panicked := true }
  | .err m =>
      { client := client, detectArg := dArg,
        translateArg := some (text, targetLang), error := some m }
  | .ok out =>
      { client := client, detectArg := dArg,
        translateArg := some (text, targetLang), output := some out }

/-- `runTranslation`: credential guard, client construction (the API-key
client is built first and then overwritten when an access token is also
set), service construction, the optional second-language detection with
the bounce on equality, then the translation call. -/
def runTranslation (env : Env) (api : Api) (targetLang text : String) :
    RunTrace :=
  if env.apiKey = "" ∧ env.accessToken = "" then
    { error := some "neither GOOGLE_TRANSLATE_API_KEY nor GOOGLE_TRANSLATE_ACCESS_TOKEN is not set" }
  else
    let built : Except String (Option Client) :=
      if env.apiKey ≠ "" then
        match api.ghttpErr with
        | some e => .error e
        | none => .ok (some (.ghttp env.apiKey))
      else .ok none
    match built with
    | .error e => { error := some e }
    | .ok c0 =>
      let client : Option Client :=
        if env.accessToken ≠ "" then some (.oauth env.accessToken) else c0
      match api.serviceErr with
      | some e => { client := client, error := some e }
      | none =>
        if env.secondLang ≠ "" then
          match Detect api text with
          | .panic =>
              { client := client, detectArg := some text, panicked := true }
          | .err m =>
              { client := client, detectArg := some text, error := some m }
          | .ok detectedSourceLang =>
              let tl := if detectedSourceLang = targetLang then env.secondLang
                        else targetLang
              runTranslateStep api client (some text) text tl
        else
          runTranslateStep api client none text targetLang

/-! ## `detectTargetLang` and target selection (gtrans.go lines 96-103, 183-194) -/

/-- The error message of `detectTargetLang`. -/
def cannotDetectMsg : String :=
  "cannot detect language. Please export $LANG or $GOOGLE_TRANSLATE_LANG (e.g. en, ja)"

/-- The `for _, env := range []string{"LANGUAGE", "LC_ALL", "LANG"}` loop:
first locale variable whose resolved code is non-empty. -/
def firstLocaleCode : List String → Option String
  | [] => none
  | v :: rest =>
      let code := langCodeFromLocale v
      if code ≠ "" then some code else firstLocaleCode rest

/-- `detectTargetLang`: GOOGLE_TRANSLATE_LANG if non-empty, else the
locale loop over LANGUAGE, LC_ALL, LANG, else the error. -/
def detectTargetLang (env : Env) : Except String String :=
  if env.gtLang ≠ "" then .ok env.gtLang
  else
    match firstLocaleCode [env.language, env.lcAll, env.lang] with
    | some code => .ok code
    | none => .error cannotDetectMsg

/-- Lines 97-103 of `Main`: the `-to` flag wins when non-empty, otherwise
`detectTargetLang` runs. -/
def selectTargetLang (env : Env) (flagTo : String) : Except String String :=
  if flagTo = "" then detectTargetLang env else .ok flagTo

/-! ## `openGoogleTranslate` and Go's `url.QueryEscape` -/

/-- Upper-case hexadecimal digit, as in Go's `upperhex` table. -/
def upperHexDigit (n : Nat) : Char :=
  if n < 10 then Char.ofNat (48 + n) else Char.ofNat (55 + n)

/-- Go `net/url.shouldEscape` for `encodeQueryComponent`: every byte is
escaped except ASCII alphanumerics and `-`, `_`, `.`, `~`. -/
def shouldEscape (c : Char) : Bool :=
  !(('a' ≤ c && c ≤ 'z') || ('A' ≤ c && c ≤ 'Z') || ('0' ≤ c && c ≤ '9') ||
    c = '-' || c = '_' || c = '.' || c = '~')

/-- Go `net/url.QueryEscape` on ASCII character lists (Go escapes the
UTF-8 bytes; on ASCII input bytes and characters coincide): a space
becomes `+`, other escaped bytes become `%XX` with upper-case hex. -/
def queryEscapeL : List Char → List Char
  | [] => []
  | c :: cs =>
      (if c = ' ' then ['+']
       else if shouldEscape c then
         ['%', upperHexDigit (c.toNat / 16), upperHexDigit (c.toNat % 16)]
       else [c]) ++ queryEscapeL cs

def queryEscape (s : String) : String := ⟨queryEscapeL s.data⟩

/-- `openGoogleTranslate`, reduced to the URL it hands to
`openbrowser.Start`. -/
def openGoogleTranslate (targetLang text : String) : String :=
  "https://translate.google.com/#auto/" ++ targetLang ++ "/" ++ queryEscape text

/-! ## `Main` (gtrans.go lines 96-118) -/

/-- Trace of one `Main` call. `stdinRead` records whether the reader was
consumed; `browserUrl` the URL handed to the browser opener; `run` the
trace of `runTranslation` when that path was taken. -/
structure MainTrace where
  target : Option String := none
  textUsed : Option String := none
  stdinRead : Bool := false
  browserUrl : Option String := none
  run : Option RunTrace := none
  error : Option String := none
  panicked : Bool := false
deriving Repr, DecidableEq

/-- `Main(r, w, targetLang, doOpenBrowser)`: target selection, input text
from the joined flag arguments or else stdin, then either the browser URL
or `runTranslation`. `args` is `flag.Args()` and `stdin` the full contents
of the reader. -/
def Main (env : Env) (api : Api) (args : List String) (stdin : String)
    (targetLang0 : String) (doOpenBrowser : Bool) : MainTrace :=
  match selectTargetLang env targetLang0 with
  | .error e => { error := some e }
  | .ok targetLang =>
    let joined := String.intercalate " " args
    let fromStdin : Bool := joined == ""
    let text := if fromStdin then stdin else joined
    if doOpenBrowser then
      { target := some targetLang, textUsed := some text,
        stdinRead := fromStdin,
        browserUrl := some (openGoogleTranslate targetLang text) }
    else
      let rt := runTranslation env api targetLang text
      { target := some targetLang, textUsed := some text,
        stdinRead := fromStdin, run := some rt,
        error := rt.error, panicked := rt.panicked }

/-! ## Concrete fixtures -/

/-- An environment with every variable unset. -/
def env0 : Env := ⟨"", "", "", "", "", "", ""⟩

/-- Both credentials set, nothing else. -/
def envBoth : Env := { env0 with apiKey := "k", accessToken := "t" }

/-- An oracle where every external call succeeds. -/
def apiOk : Api :=
  { ghttpErr := none, serviceErr := none,
    detections := fun _ => .ok [["ja"]],
    translations := fun _ _ _ => .ok ["out"] }

/-- An oracle whose detection call fails. -/
def apiDetectErr : Api := { apiOk with detections := fun _ => .error "boom" }

/-! ## Helper lemmas -/

theorem runTranslateStep_client (api : Api) (client : Option Client)
    (dArg : Option String) (text tl : String) :
    (runTranslateStep api client dArg text tl).client = client := by
  unfold runTranslateStep
  split <;> rfl

theorem runTranslateStep_detectArg (api : Api) (client : Option Client)
    (dArg : Option String) (text tl : String) :
    (runTranslateStep api client dArg text tl).detectArg = dArg := by
  unfold runTranslateStep
  split <;> rfl

theorem runTranslateStep_translateArg (api : Api) (client : Option Client)
    (dArg : Option String) (text tl : String) :
    (runTranslateStep api client dArg text tl).translateArg = some (text, tl) := by
  unfold runTranslateStep
  split <;> rfl

theorem firstLocaleCode_eq_filter_head (l : List String) :
    firstLocaleCode l = ((l.map langCodeFromLocale).filter (· ≠ "")).head? := by
  induction l with
  | nil => rfl
  | cons v rest ih =>
    by_cases h : langCodeFromLocale v ≠ ""
    · simp [firstLocaleCode, List.filter, h]
    · simp only [ne_eq, not_not] at h
      simp [firstLocaleCode, List.filter, h, ih]

/-! ## Claim theorems -/

/-- C1, counterexample — with both `GOOGLE_TRANSLATE_API_KEY=k` and
`GOOGLE_TRANSLATE_ACCESS_TOKEN=t` set and browser mode off, the final
client is not the API-key client. -/
theorem runTranslation_both_creds_apiKey_cex :
    (runTranslation envBoth apiOk "ja" "hi").client ≠ some (Client.ghttp "k") := by
  decide

/-- C1, amended — when both credentials are set (and the API-key client
construction does not fail, which would abort first), the final client is
the OAuth access-token client: the access token takes priority. -/
theorem runTranslation_both_creds_oauth (env : Env) (api : Api)
    (tl text : String) (hk : env.apiKey ≠ "") (ht : env.accessToken ≠ "")
    (hg : api.ghttpErr = none) :
    (runTranslation env api tl text).client = some (Client.oauth env.accessToken) := by
  unfold runTranslation
  rw [if_neg (fun h => hk h.1)]
  simp only [hk, ne_eq, not_false_eq_true, if_true, hg, ht]
  cases hs : api.serviceErr with
  | some e => rfl
  | none =>
    by_cases h2 : env.secondLang ≠ ""
    · simp only [h2, if_true]
      cases Detect api text with
      | panic => rfl
      | err m => rfl
      | ok d => exact runTranslateStep_client ..
    · simp only [h2, if_false]
      exact runTranslateStep_client ..

theorem runTranslation_both_creds_oauth_witness :
    ("k" : String) ≠ "" ∧ ("t" : String) ≠ "" ∧ apiOk.ghttpErr = none ∧
    (runTranslation envBoth apiOk "ja" "hi").client = some (Client.oauth "t") :=
  ⟨by decide, by decide, rfl,
    runTranslation_both_creds_oauth envBoth apiOk "ja" "hi"
      (by decide) (by decide) rfl⟩

/-- C2 — with browser mode off, once the translation stage is reached
(credentials present, client and service construction succeed): the
detection call is issued exactly when `GOOGLE_TRANSLATE_SECOND_LANG` is
non-empty, and the target passed to the translation call is the secondary
language exactly when the detected language equals the selected target
(plain string equality), the selected target otherwise. -/
theorem runTranslation_detect_bounce (env : Env) (api : Api)
    (tl text : String)
    (hc : ¬(env.apiKey = "" ∧ env.accessToken = ""))
    (hg : env.apiKey ≠ "" → api.ghttpErr = none)
    (hs : api.serviceErr = none) :
    (runTranslation env api tl text).detectArg
        = (if env.secondLang ≠ "" then some text else none) ∧
    (env.secondLang = "" →
        (runTranslation env api tl text).translateArg = some (text, tl)) ∧
    (env.secondLang ≠ "" →
        (runTranslation env api tl text).translateArg =
          match Detect api text with
          | .ok d => some (text, if d = tl then env.secondLang else tl)
          | _ => none) := by
  unfold runTranslation
  rw [if_neg hc]
  have hbuilt :
      (if env.apiKey ≠ "" then
        match api.ghttpErr with
        | some e => Except.error e
        | none => Except.ok (some (Client.ghttp env.apiKey))
       else Except.ok none) =
      Except.ok (if env.apiKey ≠ "" then some (Client.ghttp env.apiKey) else none) := by
    by_cases hk : env.apiKey ≠ ""
    · simp [hk, hg hk]
    · simp [hk]
  rw [hbuilt]
  simp only [hs]
  by_cases h2 : env.secondLang ≠ ""
  · simp only [h2, if_true, ne_eq]
    cases Detect api text with
    | panic => exact ⟨rfl, fun h => h.elim, fun _ => rfl⟩
    | err m => exact ⟨rfl, fun h => h.elim, fun _ => rfl⟩
    | ok d =>
      exact ⟨runTranslateStep_detectArg .., fun h => h.elim,
        fun _ => runTranslateStep_translateArg ..⟩
  · simp only [h2, if_false, ne_eq]
    exact ⟨runTranslateStep_detectArg .., fun _ => runTranslateStep_translateArg ..,
      fun h => h.elim⟩

theorem runTranslation_detect_bounce_witness :
    ¬(envBoth.apiKey = "" ∧ envBoth.accessToken = "") ∧
    (envBoth.apiKey ≠ "" → apiOk.ghttpErr = none) ∧ apiOk.serviceErr = none ∧
    ((runTranslation { envBoth with secondLang := "en" } apiOk "ja" "hi").detectArg
        = some "hi" ∧
     (runTranslation { envBoth with secondLang := "en" } apiOk "ja" "hi").translateArg
        = some ("hi", "en")) := by
  refine ⟨by decide, fun _ => rfl, rfl, ?_⟩
  have h := runTranslation_detect_bounce { envBoth with secondLang := "en" }
    apiOk "ja" "hi" (by decide) (fun _ => rfl) rfl
  exact ⟨by simpa using h.1, by simpa using h.2.2 (by decide)⟩

/-- Formalisation of the SPEC's words for target-language selection
(claim C4): flag, then `GOOGLE_TRANSLATE_LANG`, then the first non-empty
locale-resolver result over `LANGUAGE`, `LC_ALL`, `LANG`, else the
"cannot detect" error naming the two variables to export. -/
def targetLangSpec (env : Env) (flagTo : String) : Except String String :=
  if flagTo ≠ "" then .ok flagTo
  else if env.gtLang ≠ "" then .ok env.gtLang
  else
    match (([env.language, env.lcAll, env.lang].map langCodeFromLocale).filter
        (· ≠ "")).head? with
    | some code => .ok code
    | none => .error cannotDetectMsg

/-- C4 — the selected target language follows the documented precedence
chain exactly, including the final "cannot detect" error. -/
theorem selectTargetLang_spec (env : Env) (flagTo : String) :
    selectTargetLang env flagTo = targetLangSpec env flagTo := by
  unfold selectTargetLang targetLangSpec detectTargetLang
  rw [← firstLocaleCode_eq_filter_head]
  by_cases hf : flagTo = "" <;> simp [hf]

/-- C5, counterexample — in open-browser mode with target `ja` and text
`hi there`, the URL handed to the browser is not
`https://translate.google.com/#auto/ja/hi%20there`. -/
theorem openBrowser_url_cex :
    (Main env0 apiOk ["hi", "there"] "" "ja" true).browserUrl ≠
      some "https://translate.google.com/#auto/ja/hi%20there" := by
  decide

/-- C5, amended — in open-browser mode with target `ja` and text
`hi there`, the URL handed to the browser is exactly
`https://translate.google.com/#auto/ja/hi+there` (Go's `url.QueryEscape`
encodes the space as `+`), and no client is built and no detect or
translate call occurs. -/
theorem openBrowser_url_plus (env : Env) (api : Api) :
    (Main env api ["hi", "there"] "" "ja" true).browserUrl =
      some "https://translate.google.com/#auto/ja/hi+there" ∧
    (Main env api ["hi", "there"] "" "ja" true).run = none :=
  ⟨rfl, rfl⟩

/-- C6 — with browser mode off and both credentials empty,
`runTranslation` returns exactly the documented configuration error and
its trace records no client construction, no detection call and no
translation call. -/
theorem runTranslation_no_credentials (env : Env) (api : Api)
    (tl text : String) (hk : env.apiKey = "") (ht : env.accessToken = "") :
    runTranslation env api tl text =
      { error := some "neither GOOGLE_TRANSLATE_API_KEY nor GOOGLE_TRANSLATE_ACCESS_TOKEN is not set" } := by
  unfold runTranslation
  rw [if_pos ⟨hk, ht⟩]

theorem runTranslation_no_credentials_witness :
    env0.apiKey = "" ∧ env0.accessToken = "" ∧
    runTranslation env0 apiOk "ja" "hi" =
      { error := some "neither GOOGLE_TRANSLATE_API_KEY nor GOOGLE_TRANSLATE_ACCESS_TOKEN is not set" } :=
  ⟨rfl, rfl, runTranslation_no_credentials env0 apiOk "ja" "hi" rfl rfl⟩

/-- C7, counterexample — with the single free-text argument `""` and stdin
contents `x`, the input text is the stdin contents (and stdin is read),
although a free-text argument was given. -/
theorem input_text_stdin_cex :
    (Main env0 apiOk [""] "x" "ja" true).textUsed = some "x" ∧
    (Main env0 apiOk [""] "x" "ja" true).stdinRead = true ∧
    ([""] : List String) ≠ [] := by
  decide

/-- C7, amended — once target selection succeeds, the input text is the
space-joined free-text arguments when that join is non-empty, and is the
full stdin contents exactly when the join is empty (which happens when no
arguments are given, but also when every given argument is empty). -/
theorem input_text_selection (env : Env) (api : Api) (args : List String)
    (stdin targetLang0 : String) (doOpenBrowser : Bool)
    (hsel : ∃ tl, selectTargetLang env targetLang0 = .ok tl) :
    (Main env api args stdin targetLang0 doOpenBrowser).textUsed =
      some (if String.intercalate " " args = "" then stdin
            else String.intercalate " " args) ∧
    (Main env api args stdin targetLang0 doOpenBrowser).stdinRead =
      (String.intercalate " " args == "") := by
  obtain ⟨tl, h⟩ := hsel
  unfold Main
  rw [h]
  by_cases hb : doOpenBrowser <;> by_cases hj : String.intercalate " " args = "" <;>
    simp [hb, hj]

theorem input_text_selection_witness :
    (∃ tl, selectTargetLang env0 "ja" = .ok tl) ∧
    ((Main env0 apiOk [""] "x" "ja" true).textUsed = some "x" ∧
     (Main env0 apiOk [""] "x" "ja" true).stdinRead = true) := by
  refine ⟨⟨"ja", rfl⟩, ?_⟩
  have h := input_text_selection env0 apiOk [""] "x" "ja" true ⟨"ja", rfl⟩
  exact ⟨by simpa using h.1, by simpa using h.2⟩

/-- C8 — `Detect` and `Translate` return an error exactly when the
underlying API call fails; the error is wrapped with the prefix naming
the failed call, and on success the first result of the response is
returned. -/
theorem detect_translate_api_errors (api : Api) (text target : String) :
    ((∃ m, Detect api text = .err m) ↔ (∃ e, api.detections text = .error e)) ∧
    (∀ e, api.detections text = .error e →
        Detect api text = .err ("fail to call detection API: " ++ e)) ∧
    (∀ d ds dss, api.detections text = .ok ((d :: ds) :: dss) →
        Detect api text = .ok d) ∧
    ((∃ m, Translate api text target = .err m) ↔
        (∃ e, api.translations text target "text" = .error e)) ∧
    (∀ e, api.translations text target "text" = .error e →
        Translate api text target = .err ("fail to call translate API: " ++ e)) ∧
    (∀ t ts, api.translations text target "text" = .ok (t :: ts) →
        Translate api text target = .ok t) := by
  unfold Detect Translate
  refine ⟨?_, ?_, ?_, ?_, ?_, ?_⟩
  · cases h : api.detections text with
    | error e => simp [h]
    | ok resp => match resp with
      | [] => simp
      | [] :: _ => simp
      | (d :: _) :: _ => simp
  · intro e he
    rw [he]
  · intro d ds dss h
    rw [h]
  · cases h : api.translations text target "text" with
    | error e => simp [h]
    | ok resp => match resp with
      | [] => simp
      | t :: _ => simp
  · intro e he
    rw [he]
  · intro t ts h
    rw [h]

theorem detect_translate_api_errors_witness :
    Detect apiDetectErr "x" = .err "fail to call detection API: boom" ∧
    Translate apiDetectErr "x" "ja" = .ok "out" :=
  ⟨(detect_translate_api_errors apiDetectErr "x" "ja").2.1 "boom" rfl,
   (detect_translate_api_errors apiDetectErr "x" "ja").2.2.2.2.2 "out" [] rfl⟩

/-- C10 — in open-browser mode with an empty `-to` flag, when
`GOOGLE_TRANSLATE_LANG` is empty and none of `LANGUAGE`, `LC_ALL`, `LANG`
resolve, `Main` fails with the "cannot detect" error and its trace shows
no browser-open action (and no API activity at all). -/
theorem browser_mode_cannot_detect (env : Env) (api : Api)
    (args : List String) (stdin : String)
    (hg : env.gtLang = "")
    (h1 : langCodeFromLocale env.language = "")
    (h2 : langCodeFromLocale env.lcAll = "")
    (h3 : langCodeFromLocale env.lang = "") :
    Main env api args stdin "" true = { error := some cannotDetectMsg } := by
  unfold Main selectTargetLang detectTargetLang
  simp [firstLocaleCode, hg, h1, h2, h3]

theorem browser_mode_cannot_detect_witness :
    env0.gtLang = "" ∧ langCodeFromLocale env0.language = "" ∧
    langCodeFromLocale env0.lcAll = "" ∧ langCodeFromLocale env0.lang = "" ∧
    Main env0 apiOk ["hi"] "" "" true = { error := some cannotDetectMsg } :=
  ⟨rfl, rfl, rfl, rfl,
    browser_mode_cannot_detect env0 apiOk ["hi"] "" rfl rfl rfl rfl⟩

end Gtrans
